import Mathlib

/-!
Verification of the rsoundio OutStream wrapper (src/stream.rs) against its
specification.  The native libsoundio library is modelled as an oracle:
each native call that can fail takes its native result as an explicit
argument, and the two-phase write transaction (begin_write / end_write)
is modelled by an oracle mapping the requested frame count to either a
native error or the actual frame count plus the per-channel memory areas.
Rust integer casts (`as usize`, `as c_int`) are modelled by explicit
modular arithmetic, and Rust index-out-of-bounds panics are modelled by a
dedicated result alternative.  Sample values (f32 in the source) are only
ever moved, never computed with, so they are modelled by an opaque type
parameter.
-/

namespace Rsoundio

/-- Width of usize (64-bit target). -/
def USIZE : Nat := 2 ^ 64

/-- Rust cast of a signed integer value to usize: reduce modulo 2^64 into
the nonnegative range. -/
def usizeOfInt (i : Int) : Nat := (i % Int.ofNat USIZE).toNat

/-- Rust cast of a usize value to c_int (i32): truncate to 32 bits and
reinterpret as signed. -/
def intOfUsize (n : Nat) : Int :=
  let r : Nat := n % 2 ^ 32
  if r < 2 ^ 31 then (r : Int) else (r : Int) - 2 ^ 32

/-- ffi::SioError, the native error enumeration.  The constructor names
follow the libsoundio error codes; only None and Invalid are ever
produced by the wrapper itself. -/
inductive SioError where
  | None
  | NoMem
  | InitAudioBackend
  | SystemResources
  | OpeningDevice
  | NoSuchDevice
  | Invalid
  | EncodingString
  | IncompatibleDevice
  | BackendDisconnected
  | Interrupted
  | Underflow
  | Streaming
deriving DecidableEq, Repr

/-- Modelled from the spec: ffi::SioFormat, the native sample-format
enumeration (declared in the ffi module, which is not part of src/).
The spec only requires an invalid-format sentinel plus other format
values; a representative set of the libsoundio formats is listed. -/
inductive SioFormat where
  | Invalid
  | S8
  | U8
  | S16LE
  | S16BE
  | S32LE
  | Float32LE
  | Float64LE
deriving DecidableEq, Repr

/-- ffi::SoundIoChannelArea: a per-channel memory region consisting of a
base pointer and a step (stride in bytes between successive frames).
The pointer is a machine address; the step is a c_int as in the ffi
declaration. -/
structure SoundIoChannelArea where
  ptr : Nat
  step : Int
deriving DecidableEq, Repr

/-- The destination address write_stream computes for frame idx of an
area: `(area.ptr as usize + area.step as usize * idx)`, with usize
wrap-around. -/
def chanAddr (a : SoundIoChannelArea) (idx : Nat) : Nat :=
  (a.ptr + usizeOfInt a.step * idx) % USIZE

/-- Modelled from the spec: the native channel-layout structure; the
wrapper only ever reads its channel count (a c_int). -/
structure SoundIoChannelLayout where
  channel_count : Int
deriving DecidableEq, Repr

/-- Modelled from the spec: the native device structure; the wrapper only
interacts with its native-side reference count. -/
structure SoundIoDevice where
  ref_count : Nat
deriving DecidableEq, Repr

/-- ffi::SoundIoOutStream: the native output-stream handle fields the
wrapper reads or writes.  The three callback fields record whether a
trampoline has been installed; userdata is the opaque user-context
pointer (an address, or none when never set). -/
structure SoundIoOutStream where
  layout : SoundIoChannelLayout
  format : SioFormat
  sample_rate : Int
  device : SoundIoDevice
  userdata : Option Nat
  write_callback : Bool
  underflow_callback : Bool
  error_callback : Bool
deriving DecidableEq, Repr

/-- OutStreamCallbacks: the callback holder, one optional closure per
role.  The closure types are opaque type parameters, matching the
polymorphic boxed closures of the source. -/
structure OutStreamCallbacks (W U E : Type) where
  write : Option W
  underflow : Option U
  error : Option E

/-- OutStreamCallbacks::default(): all three slots empty. -/
def OutStreamCallbacks.default (W U E : Type) : OutStreamCallbacks W U E :=
  { write := none, underflow := none, error := none }

/-- OutStream: the wrapper, holding the native handle and the boxed
callback holder.  callbacksAddr is the stable address of the boxed
holder, the value the source takes the address of when it stores the
user-context pointer. -/
structure OutStream (W U E : Type) where
  stream : SoundIoOutStream
  callbacks : OutStreamCallbacks W U E
  callbacksAddr : Nat

variable {W U E : Type}

/-- OutStream::new: wrap a raw handle with a freshly allocated callback
holder (all slots empty); boxAddr is the address the fresh allocation
received. -/
def OutStream.new (raw : SoundIoOutStream) (boxAddr : Nat) : OutStream W U E :=
  { stream := raw, callbacks := OutStreamCallbacks.default W U E, callbacksAddr := boxAddr }

/-- OutStream::open: forwards to the native open call; nativeResult is
the value that call returned. -/
def OutStream.open (_s : OutStream W U E) (nativeResult : SioError) : Option SioError :=
  match nativeResult with
  | SioError.None => none
  | err => some err

/-- OutStream::start: forwards to the native start call. -/
def OutStream.start (_s : OutStream W U E) (nativeResult : SioError) : Option SioError :=
  match nativeResult with
  | SioError.None => none
  | err => some err

/-- OutStream::end_write: forwards to the native end-write call. -/
def OutStream.end_write (_s : OutStream W U E) (nativeResult : SioError) : Option SioError :=
  match nativeResult with
  | SioError.None => none
  | err => some err

/-- OutStream::clear_buffer: forwards to the native clear-buffer call. -/
def OutStream.clear_buffer (_s : OutStream W U E) (nativeResult : SioError) : Option SioError :=
  match nativeResult with
  | SioError.None => none
  | err => some err

/-- OutStream::pause: converts the bool to a C bool (1 or 0), passes it
to the native pause call (nativeResult gives that call result as a
function of the C bool argument). -/
def OutStream.pause (_s : OutStream W U E) (pause : Bool)
    (nativeResult : Nat → SioError) : Option SioError :=
  let pause_c_bool : Nat := match pause with
    | true => 1
    | false => 0
  match nativeResult pause_c_bool with
  | SioError.None => none
  | err => some err

/-- OutStream::register_write_callback: store the closure in the write
slot, install the write trampoline, and point the native user-context
field at the callback holder address. -/
def OutStream.register_write_callback (s : OutStream W U E) (callback : W) :
    OutStream W U E :=
  { s with
    callbacks := { s.callbacks with write := some callback },
    stream := { s.stream with
                write_callback := true,
                userdata := some s.callbacksAddr } }

/-- OutStream::register_underflow_callback: store the closure in the
underflow slot, install the underflow trampoline, and point the native
user-context field at the callback holder address. -/
def OutStream.register_underflow_callback (s : OutStream W U E) (callback : U) :
    OutStream W U E :=
  { s with
    callbacks := { s.callbacks with underflow := some callback },
    stream := { s.stream with
                underflow_callback := true,
                userdata := some s.callbacksAddr } }

/-- OutStream::register_error_callback: store the closure in the error
slot, install the error trampoline, and point the native user-context
field at the callback holder address. -/
def OutStream.register_error_callback (s : OutStream W U E) (callback : E) :
    OutStream W U E :=
  { s with
    callbacks := { s.callbacks with error := some callback },
    stream := { s.stream with
                error_callback := true,
                userdata := some s.callbacksAddr } }

/-- OutStream::current_format: read the native format field, map the
Invalid sentinel to an error, any other value to success. -/
def OutStream.current_format (s : OutStream W U E) : Except SioError SioFormat :=
  match s.stream.format with
  | SioFormat.Invalid => Except.error SioError.Invalid
  | fmt => Except.ok fmt

/-- Modelled from the spec: ChannelLayout, a read-only view of the native
layout (declared in the base module, which is not part of src/). -/
structure ChannelLayout where
  layout : SoundIoChannelLayout
deriving DecidableEq, Repr

/-- Modelled from the spec: ChannelLayout::channel_count() reads the
channel count from the native layout. -/
def ChannelLayout.channel_count (l : ChannelLayout) : Int :=
  l.layout.channel_count

/-- OutStream::get_layout: wrap the native layout field. -/
def OutStream.get_layout (s : OutStream W U E) : ChannelLayout :=
  { layout := s.stream.layout }

/-- OutStream::get_sample_rate: read the native sample-rate field. -/
def OutStream.get_sample_rate (s : OutStream W U E) : Int :=
  s.stream.sample_rate

/-- Modelled from the spec: Device, a wrapper of the native device
(declared in the base module, which is not part of src/). -/
structure Device where
  dev : SoundIoDevice
deriving DecidableEq, Repr

/-- Modelled from the spec: Device::inc_ref() increments the native
device reference count (owned by the native library) by one. -/
def Device.inc_ref (d : SoundIoDevice) : SoundIoDevice :=
  { d with ref_count := d.ref_count + 1 }

/-- OutStream::get_device: wrap the native device field, increment its
native reference count, return the wrapped device.  The second component
is the wrapper state after the native-side mutation. -/
def OutStream.get_device (s : OutStream W U E) : Device × OutStream W U E :=
  let dev : Device := { dev := s.stream.device }
  let newNative := Device.inc_ref s.stream.device
  (dev, { s with stream := { s.stream with device := newNative } })

variable {α : Type}

/-- The sample write_stream reads for a channel and frame index:
buffers[channel][idx], as a partial lookup (none models a Rust
index-out-of-bounds panic). -/
def sampleAt (buffers : List (List α)) (channel idx : Nat) : Option α :=
  (buffers.get? channel).bind (fun b => b.get? idx)

/-- The inner copy loop of write_stream for one frame index: iterate the
channel indices in order, reading buffers[channel][idx] and emitting a
write event at the address chanAddr.  Returns the write events emitted
before any panic, and whether an index-out-of-bounds panic occurred. -/
def copyChans (buffers : List (List α)) (areas : Nat → SoundIoChannelArea)
    (idx : Nat) : List Nat → List (Nat × α) × Bool
  | [] => ([], false)
  | c :: cs =>
    match sampleAt buffers c idx with
    | none => ([], true)
    | some v =>
      let rest := copyChans buffers areas idx cs
      ((chanAddr (areas c) idx, v) :: rest.1, rest.2)

/-- The outer copy loop of write_stream: iterate the frame indices in
order, running the inner channel loop for each; stop at the first
panic. -/
def copyFrames (buffers : List (List α)) (areas : Nat → SoundIoChannelArea)
    (chans : List Nat) : List Nat → List (Nat × α) × Bool
  | [] => ([], false)
  | idx :: idxs =>
    let row := copyChans buffers areas idx chans
    match row.2 with
    | true => (row.1, true)
    | false =>
      let rest := copyFrames buffers areas chans idxs
      (row.1 ++ rest.1, rest.2)

/-- The result alternative of the modelled write_stream: success with the
actual frame count, a native error, or a Rust index-out-of-bounds
panic. -/
inductive WsResult where
  | ok (frames : Int)
  | err (e : SioError)
  | panicked
deriving DecidableEq, Repr

/-- The observable outcome of one write_stream call: the returned value,
the begin-write native call with its requested frame count and outcome
(none when begin_write was never invoked), the end-write native call
with its native result (none when end_write was never invoked), and the
ordered list of (address, sample) write events performed on native
memory. -/
structure WsOutcome (α : Type) where
  result : WsResult
  beginCalled : Option (Int × (SioError ⊕ Int))
  endCalled : Option SioError
  writes : List (Nat × α)
deriving DecidableEq, Repr

/-- OutStream::write_stream.  beginW is the native begin-write oracle:
given the requested frame count it either fails with a native error or
returns the actual frame count (the value the native call stores back
through the frame-count pointer); on success the native library also
fills the channel-area array, modelled by areas (one area per channel
index).  endW is the native result of the end-write call.  Mirrors the
source: validate the buffer count against the channel count, validate
every buffer length against min_frame_count, take buffers[0].len() as
the requested frame count (a panic when buffers is empty), begin the
write transaction, copy actual_frame_count frames for channel indices
0..channel_count, then end the transaction. -/
def OutStream.write_stream (s : OutStream W U E)
    (beginW : Int → SioError ⊕ Int) (areas : Nat → SoundIoChannelArea)
    (endW : SioError) (min_frame_count : Int) (buffers : List (List α)) :
    WsOutcome α :=
  let channel_count : Int := s.get_layout.channel_count
  if buffers.length < usizeOfInt channel_count then
    { result := WsResult.err SioError.Invalid, beginCalled := none,
      endCalled := none, writes := [] }
  else if ¬ (∀ b ∈ buffers, usizeOfInt min_frame_count ≤ b.length) then
    { result := WsResult.err SioError.Invalid, beginCalled := none,
      endCalled := none, writes := [] }
  else
    match buffers.get? 0 with
    | none =>
      { result := WsResult.panicked, beginCalled := none,
        endCalled := none, writes := [] }
    | some b0 =>
      let frame_count : Int := intOfUsize b0.length
      match beginW frame_count with
      | Sum.inl e =>
        { result := WsResult.err e, beginCalled := some (frame_count, Sum.inl e),
          endCalled := none, writes := [] }
      | Sum.inr actual =>
        let copied := copyFrames buffers areas
          (List.range (usizeOfInt channel_count)) (List.range (usizeOfInt actual))
        match copied.2 with
        | true =>
          { result := WsResult.panicked,
            beginCalled := some (frame_count, Sum.inr actual),
            endCalled := none, writes := copied.1 }
        | false =>
          match s.end_write endW with
          | none =>
            { result := WsResult.ok actual,
              beginCalled := some (frame_count, Sum.inr actual),
              endCalled := some endW, writes := copied.1 }
          | some e =>
            { result := WsResult.err e,
              beginCalled := some (frame_count, Sum.inr actual),
              endCalled := some endW, writes := copied.1 }

/-! ### Helper lemmas about the copy loops -/

/-- If every channel lookup for this frame succeeds, the inner loop
panics on nothing and emits one write event per channel, in channel
order, at the strided addresses. -/
theorem copyChans_success [Inhabited α] (buffers : List (List α))
    (areas : Nat → SoundIoChannelArea) (idx : Nat) (chans : List Nat)
    (h : ∀ c ∈ chans, (sampleAt buffers c idx).isSome) :
    copyChans buffers areas idx chans =
      (chans.map (fun c => (chanAddr (areas c) idx, (sampleAt buffers c idx).getD default)),
       false) := by
  induction chans with
  | nil => rfl
  | cons c cs ih =>
    obtain ⟨v, hv⟩ := Option.isSome_iff_exists.mp (h c (List.mem_cons_self c cs))
    have ihh := ih (fun x hx => h x (List.mem_cons_of_mem c hx))
    simp [copyChans, hv, ihh]

/-- If every lookup succeeds, the outer loop panics on nothing and emits,
frame index by frame index, one write event per channel. -/
theorem copyFrames_success [Inhabited α] (buffers : List (List α))
    (areas : Nat → SoundIoChannelArea) (chans idxs : List Nat)
    (h : ∀ i ∈ idxs, ∀ c ∈ chans, (sampleAt buffers c i).isSome) :
    copyFrames buffers areas chans idxs =
      (idxs.flatMap (fun i => chans.map (fun c =>
        (chanAddr (areas c) i, (sampleAt buffers c i).getD default))), false) := by
  induction idxs with
  | nil => rfl
  | cons i is ih =>
    have hrow := copyChans_success buffers areas i chans (h i (List.mem_cons_self i is))
    have ihh := ih (fun x hx => h x (List.mem_cons_of_mem i hx))
    simp [copyFrames, hrow, ihh]

/-- A channel and frame lookup succeeds when the channel index is within
the buffer list and the frame index is within every buffer. -/
theorem sampleAt_isSome (buffers : List (List α)) (c idx : Nat)
    (hc : c < buffers.length) (hlen : ∀ b ∈ buffers, idx < b.length) :
    (sampleAt buffers c idx).isSome := by
  have hb : buffers.get? c = some (buffers.get ⟨c, hc⟩) := List.get?_eq_get hc
  have hmem : buffers.get ⟨c, hc⟩ ∈ buffers := List.get_mem buffers c hc
  have hlt : idx < (buffers.get ⟨c, hc⟩).length := hlen _ hmem
  have hi : (buffers.get ⟨c, hc⟩).get? idx
      = some ((buffers.get ⟨c, hc⟩).get ⟨idx, hlt⟩) := List.get?_eq_get hlt
  unfold sampleAt
  rw [hb, Option.some_bind, hi]
  rfl

/-- If every lookup for this frame succeeds, the inner loop does not
panic. -/
theorem copyChans_no_panic (buffers : List (List α))
    (areas : Nat → SoundIoChannelArea) (idx : Nat) (chans : List Nat)
    (h : ∀ c ∈ chans, (sampleAt buffers c idx).isSome) :
    (copyChans buffers areas idx chans).2 = false := by
  induction chans with
  | nil => rfl
  | cons c cs ih =>
    obtain ⟨v, hv⟩ := Option.isSome_iff_exists.mp (h c (List.mem_cons_self c cs))
    simp [copyChans, hv, ih (fun x hx => h x (List.mem_cons_of_mem c hx))]

/-- If every lookup succeeds, the outer loop does not panic. -/
theorem copyFrames_no_panic (buffers : List (List α))
    (areas : Nat → SoundIoChannelArea) (chans idxs : List Nat)
    (h : ∀ i ∈ idxs, ∀ c ∈ chans, (sampleAt buffers c i).isSome) :
    (copyFrames buffers areas chans idxs).2 = false := by
  induction idxs with
  | nil => rfl
  | cons i is ih =>
    have hrow := copyChans_no_panic buffers areas i chans (h i (List.mem_cons_self i is))
    have ihh := ih (fun x hx => h x (List.mem_cons_of_mem i hx))
    simp [copyFrames, hrow, ihh]

/-- All lookups the copy loops perform succeed when the channel range is
within the buffer list and the frame range is within every buffer. -/
theorem sampleAt_range_isSome (buffers : List (List α)) (ccU aU : Nat)
    (hcc : ccU ≤ buffers.length) (hlen : ∀ b ∈ buffers, aU ≤ b.length) :
    ∀ i ∈ List.range aU, ∀ c ∈ List.range ccU, (sampleAt buffers c i).isSome := by
  intro i hi c hc
  exact sampleAt_isSome buffers c i
    (lt_of_lt_of_le (List.mem_range.mp hc) hcc)
    (fun b hb => lt_of_lt_of_le (List.mem_range.mp hi) (hlen b hb))

/-- The full characterization of write_stream on the path where
validation passes, the first buffer exists, the begin-write oracle
reports an actual frame count, and every buffer holds at least that many
samples: the whole strided copy is performed (frame index outer, channel
inner) and the end-write native result decides the returned value. -/
theorem write_stream_spec [Inhabited α] (s : OutStream W U E)
    (beginW : Int → SioError ⊕ Int) (areas : Nat → SoundIoChannelArea)
    (endW : SioError) (minf : Int) (buffers : List (List α))
    (b0 : List α) (actual : Int)
    (h1 : ¬ buffers.length < usizeOfInt s.stream.layout.channel_count)
    (h2 : ∀ b ∈ buffers, usizeOfInt minf ≤ b.length)
    (hb0 : buffers.get? 0 = some b0)
    (hbeg : beginW (intOfUsize b0.length) = Sum.inr actual)
    (hlen : ∀ b ∈ buffers, usizeOfInt actual ≤ b.length) :
    s.write_stream beginW areas endW minf buffers =
      { result := match endW with
          | SioError.None => WsResult.ok actual
          | e => WsResult.err e,
        beginCalled := some (intOfUsize b0.length, Sum.inr actual),
        endCalled := some endW,
        writes := (List.range (usizeOfInt actual)).flatMap (fun i =>
          (List.range (usizeOfInt s.stream.layout.channel_count)).map (fun c =>
            (chanAddr (areas c) i, (sampleAt buffers c i).getD default))) } := by
  have hall := sampleAt_range_isSome buffers
    (usizeOfInt s.stream.layout.channel_count) (usizeOfInt actual)
    (Nat.not_lt.mp h1) hlen
  have hcopy := copyFrames_success buffers areas
    (List.range (usizeOfInt s.stream.layout.channel_count))
    (List.range (usizeOfInt actual)) hall
  unfold OutStream.write_stream
  simp only [OutStream.get_layout, ChannelLayout.channel_count]
  rw [if_neg h1, if_neg (not_not_intro h2), hb0]
  simp only []
  rw [hbeg]
  simp only []
  rw [hcopy]
  cases endW <;> rfl

/-! ### Concrete fixtures used by witnesses and counterexamples -/

/-- A concrete native handle with the given channel count and format. -/
def rawFix (cc : Int) (fmt : SioFormat) : SoundIoOutStream :=
  { layout := { channel_count := cc }, format := fmt, sample_rate := 44100,
    device := { ref_count := 5 }, userdata := none,
    write_callback := false, underflow_callback := false, error_callback := false }

/-- A concrete wrapper with the given channel count and format. -/
def streamFix (cc : Int) (fmt : SioFormat) : OutStream Nat Nat Nat :=
  OutStream.new (rawFix cc fmt) 42

/-- Concrete non-contiguous channel areas: stride 8 bytes (larger than
the 4-byte f32 sample width), distinct base pointers per channel. -/
def areasFix : Nat → SoundIoChannelArea := fun c => { ptr := 1000 * c, step := 8 }

/-! ### Claims -/

/-- C2: for every buffer set with fewer entries than the channel count,
write_stream returns the invalid error and invokes neither begin_write
nor end_write; and for every buffer set where some channel buffer holds
fewer than min_frame_count samples, write_stream returns the invalid
error. -/
theorem claim_C2_validation_errors (s : OutStream W U E)
    (beginW : Int → SioError ⊕ Int) (areas : Nat → SoundIoChannelArea)
    (endW : SioError) (minf : Int) (buffers : List (List α)) :
    (buffers.length < usizeOfInt s.get_layout.channel_count →
      (s.write_stream beginW areas endW minf buffers).result
          = WsResult.err SioError.Invalid ∧
      (s.write_stream beginW areas endW minf buffers).beginCalled = none ∧
      (s.write_stream beginW areas endW minf buffers).endCalled = none) ∧
    ((∃ b ∈ buffers, b.length < usizeOfInt minf) →
      (s.write_stream beginW areas endW minf buffers).result
          = WsResult.err SioError.Invalid) := by
  constructor
  · intro hlt
    simp [OutStream.write_stream, hlt]
  · intro hshort
    by_cases hlt : buffers.length < usizeOfInt s.get_layout.channel_count
    · simp [OutStream.write_stream, hlt]
    · have hnall : ¬ (∀ b ∈ buffers, usizeOfInt minf ≤ b.length) := by
        obtain ⟨b, hb, hbl⟩ := hshort
        intro hall
        exact absurd (hall b hb) (Nat.not_le.mpr hbl)
      simp [OutStream.write_stream, hlt, hnall]

/-- C2 witness: a two-channel stream rejects a single-buffer set without
touching the native write primitives, and rejects a buffer set with a
too-short channel buffer. -/
theorem claim_C2_validation_errors_witness :
    (((streamFix 2 SioFormat.S16LE).write_stream (fun fc => Sum.inr fc) areasFix
        SioError.None 1 ([[1]] : List (List Int))).result
          = WsResult.err SioError.Invalid ∧
     ((streamFix 2 SioFormat.S16LE).write_stream (fun fc => Sum.inr fc) areasFix
        SioError.None 1 ([[1]] : List (List Int))).beginCalled = none ∧
     ((streamFix 2 SioFormat.S16LE).write_stream (fun fc => Sum.inr fc) areasFix
        SioError.None 1 ([[1]] : List (List Int))).endCalled = none) ∧
    ((streamFix 2 SioFormat.S16LE).write_stream (fun fc => Sum.inr fc) areasFix
        SioError.None 2 ([[1, 2], [3]] : List (List Int))).result
          = WsResult.err SioError.Invalid :=
  ⟨(claim_C2_validation_errors (streamFix 2 SioFormat.S16LE) (fun fc => Sum.inr fc)
      areasFix SioError.None 1 ([[1]] : List (List Int))).1 (by decide),
   (claim_C2_validation_errors (streamFix 2 SioFormat.S16LE) (fun fc => Sum.inr fc)
      areasFix SioError.None 2 ([[1, 2], [3]] : List (List Int))).2
      ⟨[3], by decide, by decide⟩⟩

/-- C4: for every callback role, registering a closure when one is
already registered for that role leaves the new closure as the single
stored closure for that role (the holder keeps at most one closure per
role, an Option slot, so closures never accumulate). -/
theorem claim_C4_register_replaces (s : OutStream W U E)
    (w0 w : W) (u0 u : U) (e0 e : E)
    (hw : s.callbacks.write = some w0)
    (hu : s.callbacks.underflow = some u0)
    (he : s.callbacks.error = some e0) :
    (s.register_write_callback w).callbacks.write = some w ∧
    (s.register_underflow_callback u).callbacks.underflow = some u ∧
    (s.register_error_callback e).callbacks.error = some e :=
  ⟨rfl, rfl, rfl⟩

/-- C4 witness: on a holder with all three roles occupied, each second
registration leaves exactly the new closure in its slot. -/
theorem claim_C4_register_replaces_witness :
    (((⟨rawFix 2 SioFormat.S16LE, ⟨some 1, some 2, some 3⟩, 42⟩ :
        OutStream Nat Nat Nat).register_write_callback 10).callbacks.write
          = some 10) ∧
    (((⟨rawFix 2 SioFormat.S16LE, ⟨some 1, some 2, some 3⟩, 42⟩ :
        OutStream Nat Nat Nat).register_underflow_callback 20).callbacks.underflow
          = some 20) ∧
    (((⟨rawFix 2 SioFormat.S16LE, ⟨some 1, some 2, some 3⟩, 42⟩ :
        OutStream Nat Nat Nat).register_error_callback 30).callbacks.error
          = some 30) :=
  claim_C4_register_replaces
    (⟨rawFix 2 SioFormat.S16LE, ⟨some 1, some 2, some 3⟩, 42⟩ : OutStream Nat Nat Nat)
    1 10 2 20 3 30 rfl rfl rfl

/-- C5: current_format returns the invalid error exactly when the native
format field holds the invalid sentinel, and for every other format
value it returns success carrying that value unchanged. -/
theorem claim_C5_current_format (s : OutStream W U E) :
    (s.current_format = Except.error SioError.Invalid ↔
      s.stream.format = SioFormat.Invalid) ∧
    (s.stream.format ≠ SioFormat.Invalid →
      s.current_format = Except.ok s.stream.format) := by
  cases hf : s.stream.format <;>
    simp [OutStream.current_format, hf]

/-- C5 witness: a stream whose native format is S16LE yields success
carrying S16LE. -/
theorem claim_C5_current_format_witness :
    (streamFix 2 SioFormat.S16LE).current_format = Except.ok SioFormat.S16LE :=
  (claim_C5_current_format (streamFix 2 SioFormat.S16LE)).2 (by decide)

/-- C7: every call to get_device wraps the native device held by the
stream and increments that device's native reference count by exactly
one. -/
theorem claim_C7_get_device_ref (s : OutStream W U E) :
    (s.get_device).2.stream.device.ref_count = s.stream.device.ref_count + 1 ∧
    (s.get_device).1 = { dev := s.stream.device } :=
  ⟨rfl, rfl⟩

/-- C9: each registration touches only its own slot of the callback
holder (the other two stored closures are unchanged), every registration
points the native user-context pointer at the address of the same
callback holder, and a freshly constructed OutStream has all three slots
empty. -/
theorem claim_C9_registration_frame (s : OutStream W U E) (w : W) (u : U) (e : E)
    (raw : SoundIoOutStream) (addr : Nat) :
    ((s.register_write_callback w).callbacks.underflow = s.callbacks.underflow ∧
     (s.register_write_callback w).callbacks.error = s.callbacks.error ∧
     (s.register_write_callback w).stream.userdata = some s.callbacksAddr) ∧
    ((s.register_underflow_callback u).callbacks.write = s.callbacks.write ∧
     (s.register_underflow_callback u).callbacks.error = s.callbacks.error ∧
     (s.register_underflow_callback u).stream.userdata = some s.callbacksAddr) ∧
    ((s.register_error_callback e).callbacks.write = s.callbacks.write ∧
     (s.register_error_callback e).callbacks.underflow = s.callbacks.underflow ∧
     (s.register_error_callback e).stream.userdata = some s.callbacksAddr) ∧
    ((OutStream.new raw addr : OutStream W U E).callbacks.write = none ∧
     (OutStream.new raw addr : OutStream W U E).callbacks.underflow = none ∧
     (OutStream.new raw addr : OutStream W U E).callbacks.error = none) :=
  ⟨⟨rfl, rfl, rfl⟩, ⟨rfl, rfl, rfl⟩, ⟨rfl, rfl, rfl⟩, ⟨rfl, rfl, rfl⟩⟩

/-- C6: for every native result value, open, start, end_write,
clear_buffer and pause return no error exactly when the native call
returned the success value, and otherwise return exactly the native
error value unmodified (for pause, the native call receives the C bool 1
or 0 for the requested pause state). -/
theorem claim_C6_direct_forwarding (s : OutStream W U E) (r : SioError)
    (b : Bool) (nr : Nat → SioError) :
    ((s.open r = none ↔ r = SioError.None) ∧
     (r ≠ SioError.None → s.open r = some r)) ∧
    ((s.start r = none ↔ r = SioError.None) ∧
     (r ≠ SioError.None → s.start r = some r)) ∧
    ((s.end_write r = none ↔ r = SioError.None) ∧
     (r ≠ SioError.None → s.end_write r = some r)) ∧
    ((s.clear_buffer r = none ↔ r = SioError.None) ∧
     (r ≠ SioError.None → s.clear_buffer r = some r)) ∧
    ((s.pause b nr = none ↔ nr (if b then 1 else 0) = SioError.None) ∧
     (nr (if b then 1 else 0) ≠ SioError.None →
        s.pause b nr = some (nr (if b then 1 else 0)))) := by
  refine ⟨?_, ?_, ?_, ?_, ?_⟩
  · cases r <;> simp [OutStream.open]
  · cases r <;> simp [OutStream.start]
  · cases r <;> simp [OutStream.end_write]
  · cases r <;> simp [OutStream.clear_buffer]
  · cases b
    · cases hnr : nr 0 <;> simp [OutStream.pause, hnr]
    · cases hnr : nr 1 <;> simp [OutStream.pause, hnr]

/-- C6 witness: a concrete non-success native result is forwarded
unmodified by open, and a concrete success native result makes pause
report no error. -/
theorem claim_C6_direct_forwarding_witness :
    (streamFix 2 SioFormat.S16LE).open SioError.Streaming
        = some SioError.Streaming ∧
    (streamFix 2 SioFormat.S16LE).pause true (fun _ => SioError.None) = none :=
  ⟨(claim_C6_direct_forwarding (streamFix 2 SioFormat.S16LE) SioError.Streaming
      true (fun _ => SioError.None)).1.2 (by decide),
   (claim_C6_direct_forwarding (streamFix 2 SioFormat.S16LE) SioError.Streaming
      true (fun _ => SioError.None)).2.2.2.2.1.mpr (by decide)⟩

/-- Sum of a constant over a range. -/
theorem sum_const_range (n c : Nat) :
    ((List.range n).map (fun _ => c)).sum = n * c := by
  induction n with
  | zero => simp
  | succ k ih => simp [List.range_succ, ih, Nat.succ_mul]

/-- C1 counterexample: a two-channel stream with buffer set [[1,2],[3]]
and min_frame_count 1 passes both validation checks, begin_write is
invoked with the first buffer length 2 as requested count and reports
actual count 2 (which is smaller than or equal to the requested count),
yet write_stream does not return 2: the copy loop hits an out-of-bounds
index on the second (shorter) channel buffer and panics.  This refutes
the claim as stated, which assumes only that validation passed. -/
theorem claim_C1_counterexample :
    ¬ (([[1, 2], [3]] : List (List Int)).length
        < usizeOfInt (streamFix 2 SioFormat.S16LE).get_layout.channel_count) ∧
    (∀ b ∈ ([[1, 2], [3]] : List (List Int)), usizeOfInt 1 ≤ b.length) ∧
    ((streamFix 2 SioFormat.S16LE).write_stream (fun fc => Sum.inr fc) areasFix
        SioError.None 1 ([[1, 2], [3]] : List (List Int))).beginCalled
      = some (2, Sum.inr 2) ∧
    ((streamFix 2 SioFormat.S16LE).write_stream (fun fc => Sum.inr fc) areasFix
        SioError.None 1 ([[1, 2], [3]] : List (List Int))).result
      = WsResult.panicked := by decide

/-- C1 (amended): for every input passing validation such that the first
buffer exists and, additionally, every channel buffer holds at least the
actual frame count of samples, write_stream requests the first buffer
length (as c_int) from begin_write, and when begin_write reports an
actual count no larger than the requested count (and end_write
succeeds), write_stream copies exactly that actual number of frames for
each of the stream's channels (one write event per channel per frame
index) and returns the actual count as its success value. -/
theorem claim_C1_amended [Inhabited α] (s : OutStream W U E)
    (beginW : Int → SioError ⊕ Int) (areas : Nat → SoundIoChannelArea)
    (minf : Int) (buffers : List (List α)) (b0 : List α) (actual : Int)
    (h1 : ¬ buffers.length < usizeOfInt s.get_layout.channel_count)
    (h2 : ∀ b ∈ buffers, usizeOfInt minf ≤ b.length)
    (hb0 : buffers.get? 0 = some b0)
    (hbeg : beginW (intOfUsize b0.length) = Sum.inr actual)
    (hle : usizeOfInt actual ≤ b0.length)
    (hlen : ∀ b ∈ buffers, usizeOfInt actual ≤ b.length) :
    ((s.write_stream beginW areas SioError.None minf buffers).result
        = WsResult.ok actual) ∧
    ((s.write_stream beginW areas SioError.None minf buffers).beginCalled
        = some (intOfUsize b0.length, Sum.inr actual)) ∧
    ((s.write_stream beginW areas SioError.None minf buffers).writes
        = (List.range (usizeOfInt actual)).flatMap (fun i =>
            (List.range (usizeOfInt s.get_layout.channel_count)).map (fun c =>
              (chanAddr (areas c) i, (sampleAt buffers c i).getD default)))) ∧
    ((s.write_stream beginW areas SioError.None minf buffers).writes.length
        = usizeOfInt actual * usizeOfInt s.get_layout.channel_count) := by
  have hspec := write_stream_spec s beginW areas SioError.None minf buffers b0 actual
    h1 h2 hb0 hbeg hlen
  have hwr : (s.write_stream beginW areas SioError.None minf buffers).writes
      = (List.range (usizeOfInt actual)).flatMap (fun i =>
          (List.range (usizeOfInt s.get_layout.channel_count)).map (fun c =>
            (chanAddr (areas c) i, (sampleAt buffers c i).getD default))) := by
    simp [hspec, OutStream.get_layout, ChannelLayout.channel_count]
  refine ⟨by simp [hspec], by simp [hspec], hwr, ?_⟩
  rw [hwr]
  rw [List.length_flatMap]
  simp only [List.map_map, Function.comp_def, List.length_map, List.length_range]
  exact sum_const_range (usizeOfInt actual)
    (usizeOfInt s.get_layout.channel_count)

/-- C1 amended witness: two channels, equal-length buffers, begin_write
reporting actual count 1 of the 2 requested; write_stream returns 1 and
performs exactly one strided write per channel. -/
theorem claim_C1_amended_witness :
    ((streamFix 2 SioFormat.S16LE).write_stream (fun _ => Sum.inr 1) areasFix
        SioError.None 1 ([[1, 2], [3, 4]] : List (List Int))).result
      = WsResult.ok 1 ∧
    ((streamFix 2 SioFormat.S16LE).write_stream (fun _ => Sum.inr 1) areasFix
        SioError.None 1 ([[1, 2], [3, 4]] : List (List Int))).beginCalled
      = some (2, Sum.inr 1) ∧
    ((streamFix 2 SioFormat.S16LE).write_stream (fun _ => Sum.inr 1) areasFix
        SioError.None 1 ([[1, 2], [3, 4]] : List (List Int))).writes
      = [(0, 1), (1000, 3)] := by
  have h := claim_C1_amended (streamFix 2 SioFormat.S16LE) (fun _ => Sum.inr 1)
    areasFix 1 ([[1, 2], [3, 4]] : List (List Int)) [1, 2] 1
    (by decide) (by decide) (by decide) rfl (by decide) (by decide)
  exact ⟨h.1, h.2.1, by rw [h.2.2.1]; decide⟩

/-- C3: for every channel and frame index that write_stream copies (on
the path characterized by the same hypotheses as the amended C1, for any
end-write result), the sample buffers[channel][idx] is written to the
address computed as the channel area base pointer plus the channel area
step times idx, so non-contiguous channel memory is handled by striding
rather than assuming tight packing. -/
theorem claim_C3_strided_addressing [Inhabited α] (s : OutStream W U E)
    (beginW : Int → SioError ⊕ Int) (areas : Nat → SoundIoChannelArea)
    (endW : SioError) (minf : Int) (buffers : List (List α))
    (b0 : List α) (actual : Int)
    (h1 : ¬ buffers.length < usizeOfInt s.get_layout.channel_count)
    (h2 : ∀ b ∈ buffers, usizeOfInt minf ≤ b.length)
    (hb0 : buffers.get? 0 = some b0)
    (hbeg : beginW (intOfUsize b0.length) = Sum.inr actual)
    (hlen : ∀ b ∈ buffers, usizeOfInt actual ≤ b.length)
    (c idx : Nat) (hc : c < usizeOfInt s.get_layout.channel_count)
    (hidx : idx < usizeOfInt actual)
    (bc : List α) (v : α)
    (hbc : buffers.get? c = some bc) (hv : bc.get? idx = some v)
    (hnw : (areas c).ptr + usizeOfInt (areas c).step * idx < USIZE) :
    ((areas c).ptr + usizeOfInt (areas c).step * idx, v)
      ∈ (s.write_stream beginW areas endW minf buffers).writes := by
  have hspec := write_stream_spec s beginW areas endW minf buffers b0 actual
    h1 h2 hb0 hbeg hlen
  rw [hspec]
  apply List.mem_flatMap.mpr
  refine ⟨idx, List.mem_range.mpr hidx, ?_⟩
  apply List.mem_map.mpr
  refine ⟨c, List.mem_range.mpr hc, ?_⟩
  have hs : sampleAt buffers c idx = some v := by
    unfold sampleAt
    rw [hbc, Option.some_bind, hv]
  rw [hs]
  simp [chanAddr, Nat.mod_eq_of_lt hnw]

/-- C3 witness: with stride 8 (larger than the 4-byte f32 width) and
channel bases 0 and 1000, the sample buffers[1][1] = 4 is written to
address 1000 + 8 * 1 = 1008. -/
theorem claim_C3_strided_addressing_witness :
    ((1008 : Nat), (4 : Int))
      ∈ ((streamFix 2 SioFormat.S16LE).write_stream (fun fc => Sum.inr fc) areasFix
          SioError.None 1 ([[1, 2], [3, 4]] : List (List Int))).writes := by
  have h := claim_C3_strided_addressing (streamFix 2 SioFormat.S16LE)
    (fun fc => Sum.inr fc) areasFix SioError.None 1
    ([[1, 2], [3, 4]] : List (List Int)) [1, 2] 2
    (by decide) (by decide) (by decide) rfl (by decide)
    1 1 (by decide) (by decide) [3, 4] 4 (by decide) (by decide) (by decide)
  exact h

/-- C8: write_stream returns the first native error encountered: when
the begin-write call it performed failed with error e, it returns e
having copied no samples and without having called end_write; when the
end-write call it performed returned error e, it returns e; and it
returns a frame count only when a performed begin-write succeeded with
that count and a performed end-write succeeded. -/
theorem claim_C8_first_native_error (s : OutStream W U E)
    (beginW : Int → SioError ⊕ Int) (areas : Nat → SoundIoChannelArea)
    (endW : SioError) (minf : Int) (buffers : List (List α))
    (e : SioError) (req n : Int) :
    ((s.write_stream beginW areas endW minf buffers).beginCalled
        = some (req, Sum.inl e) →
      (s.write_stream beginW areas endW minf buffers).result = WsResult.err e ∧
      (s.write_stream beginW areas endW minf buffers).writes = [] ∧
      (s.write_stream beginW areas endW minf buffers).endCalled = none) ∧
    ((s.write_stream beginW areas endW minf buffers).endCalled = some e →
      e ≠ SioError.None →
      (s.write_stream beginW areas endW minf buffers).result = WsResult.err e) ∧
    ((s.write_stream beginW areas endW minf buffers).result = WsResult.ok n →
      (∃ r, (s.write_stream beginW areas endW minf buffers).beginCalled
          = some (r, Sum.inr n)) ∧
      (s.write_stream beginW areas endW minf buffers).endCalled
          = some SioError.None) := by
  unfold OutStream.write_stream
  by_cases hv1 : buffers.length < usizeOfInt s.get_layout.channel_count
  · simp [hv1]
  · rw [if_neg hv1]
    by_cases hv2 : ∀ b ∈ buffers, usizeOfInt minf ≤ b.length
    · rw [if_neg (not_not_intro hv2)]
      cases hb : buffers.get? 0 with
      | none => simp [hb]
      | some b0 =>
        simp only [hb]
        cases hbw : beginW (intOfUsize b0.length) with
        | inl e2 =>
          simp only [hbw]
          refine ⟨?_, by simp, by simp⟩
          intro h
          simp only [Option.some.injEq, Prod.mk.injEq, Sum.inl.injEq] at h
          obtain ⟨h1, h2⟩ := h
          subst h2
          simp
        | inr act =>
          simp only [hbw]
          cases hcp : (copyFrames buffers areas
              (List.range (usizeOfInt s.get_layout.channel_count))
              (List.range (usizeOfInt act))).2 with
          | true => simp [hcp]
          | false =>
            simp only [hcp]
            by_cases hNone : endW = SioError.None
            · subst hNone
              simp only [OutStream.end_write]
              refine ⟨by simp, ?_, ?_⟩
              · intro h hne
                simp only [Option.some.injEq] at h
                exact absurd h.symm hne
              · intro h
                have hn : act = n := by
                  simpa using h
                subst hn
                exact ⟨⟨intOfUsize b0.length, rfl⟩, by simp⟩
            · have he : OutStream.end_write s endW = some endW := by
                cases endW <;> first
                  | exact absurd rfl hNone
                  | rfl
              simp only [he]
              refine ⟨by simp, ?_, by simp⟩
              intro h hne
              simp only [Option.some.injEq] at h
              subst h
              rfl
    · rw [if_pos (by exact hv2)]
      simp

/-- C8 witness: when begin_write fails with the Streaming error the call
returns that error with no writes and no end_write; when begin_write
succeeds and end_write fails with the Underflow error the call returns
that error. -/
theorem claim_C8_first_native_error_witness :
    (((streamFix 2 SioFormat.S16LE).write_stream (fun _ => Sum.inl SioError.Streaming)
        areasFix SioError.None 1 ([[1, 2], [3, 4]] : List (List Int))).result
          = WsResult.err SioError.Streaming ∧
     ((streamFix 2 SioFormat.S16LE).write_stream (fun _ => Sum.inl SioError.Streaming)
        areasFix SioError.None 1 ([[1, 2], [3, 4]] : List (List Int))).writes = [] ∧
     ((streamFix 2 SioFormat.S16LE).write_stream (fun _ => Sum.inl SioError.Streaming)
        areasFix SioError.None 1 ([[1, 2], [3, 4]] : List (List Int))).endCalled
          = none) ∧
    ((streamFix 2 SioFormat.S16LE).write_stream (fun fc => Sum.inr fc)
        areasFix SioError.Underflow 1 ([[1, 2], [3, 4]] : List (List Int))).result
          = WsResult.err SioError.Underflow :=
  ⟨(claim_C8_first_native_error (streamFix 2 SioFormat.S16LE)
      (fun _ => Sum.inl SioError.Streaming) areasFix SioError.None 1
      ([[1, 2], [3, 4]] : List (List Int)) SioError.Streaming 2 0).1 (by decide),
   (claim_C8_first_native_error (streamFix 2 SioFormat.S16LE)
      (fun fc => Sum.inr fc) areasFix SioError.Underflow 1
      ([[1, 2], [3, 4]] : List (List Int)) SioError.Underflow 2 0).2.1
      (by decide) (by decide)⟩

/-- C10: first part: whenever the channel count is at least 1, all
buffers have equal length, the inputs pass validation and the begin
write oracle only reports actual frame counts no larger than the first
buffer length, every element access write_stream performs is in bounds:
the first buffer exists and the call never ends in the panic outcome.
Second part: validation alone does not establish this: with channel
count 0 the empty buffer list passes both validation checks yet the
access buffers[0] is out of bounds and the call panics. -/
theorem claim_C10_access_bounds :
    (∀ (W U E α : Type) (s : OutStream W U E) (beginW : Int → SioError ⊕ Int)
       (areas : Nat → SoundIoChannelArea) (endW : SioError) (minf : Int)
       (buffers : List (List α)),
       1 ≤ usizeOfInt s.get_layout.channel_count →
       ¬ buffers.length < usizeOfInt s.get_layout.channel_count →
       (∀ b ∈ buffers, usizeOfInt minf ≤ b.length) →
       (∀ b1 ∈ buffers, ∀ b2 ∈ buffers, b1.length = b2.length) →
       (∀ b0, buffers.get? 0 = some b0 →
          ∀ a, beginW (intOfUsize b0.length) = Sum.inr a →
            usizeOfInt a ≤ b0.length) →
       (∃ b0, buffers.get? 0 = some b0) ∧
       (s.write_stream beginW areas endW minf buffers).result
           ≠ WsResult.panicked) ∧
    (¬ (([] : List (List Int)).length
          < usizeOfInt (streamFix 0 SioFormat.S16LE).get_layout.channel_count) ∧
     (∀ b ∈ ([] : List (List Int)), usizeOfInt 0 ≤ b.length) ∧
     ((streamFix 0 SioFormat.S16LE).write_stream (fun fc => Sum.inr fc) areasFix
        SioError.None 0 ([] : List (List Int))).result = WsResult.panicked) := by
  constructor
  · intro W U E α s beginW areas endW minf buffers hcc hv1 hv2 heq hbw
    have hpos : 0 < buffers.length :=
      lt_of_lt_of_le (Nat.lt_of_lt_of_le Nat.zero_lt_one hcc) (Nat.not_lt.mp hv1)
    have hb0 : buffers.get? 0 = some (buffers.get ⟨0, hpos⟩) := List.get?_eq_get hpos
    refine ⟨⟨buffers.get ⟨0, hpos⟩, hb0⟩, ?_⟩
    unfold OutStream.write_stream
    rw [if_neg hv1, if_neg (not_not_intro hv2)]
    simp only [hb0]
    cases hbg : beginW (intOfUsize (buffers.get ⟨0, hpos⟩).length) with
    | inl e =>
      simp only [hbg]
      simp
    | inr a =>
      simp only [hbg]
      have hmem : buffers.get ⟨0, hpos⟩ ∈ buffers := List.get_mem buffers 0 hpos
      have hall : ∀ b ∈ buffers, usizeOfInt a ≤ b.length := by
        intro b hb
        have := heq b hb (buffers.get ⟨0, hpos⟩) hmem
        rw [this]
        exact hbw (buffers.get ⟨0, hpos⟩) hb0 a hbg
      have hcp := copyFrames_no_panic buffers areas
        (List.range (usizeOfInt s.get_layout.channel_count))
        (List.range (usizeOfInt a))
        (sampleAt_range_isSome buffers (usizeOfInt s.get_layout.channel_count)
          (usizeOfInt a) (Nat.not_lt.mp hv1) hall)
      simp only [hcp]
      cases hend : endW <;> simp [OutStream.end_write]
  · exact ⟨by decide, by decide, by decide⟩

/-- C10 witness: a concrete two-channel stream with equal-length buffers
and an oracle reporting the requested count satisfies the first part:
the first buffer exists and the call does not panic. -/
theorem claim_C10_access_bounds_witness :
    (∃ b0, ([[1, 2], [3, 4]] : List (List Int)).get? 0 = some b0) ∧
    ((streamFix 2 SioFormat.S16LE).write_stream (fun fc => Sum.inr fc) areasFix
        SioError.None 1 ([[1, 2], [3, 4]] : List (List Int))).result
          ≠ WsResult.panicked :=
  claim_C10_access_bounds.1 Nat Nat Nat Int (streamFix 2 SioFormat.S16LE)
    (fun fc => Sum.inr fc) areasFix SioError.None 1
    ([[1, 2], [3, 4]] : List (List Int))
    (by decide) (by decide) (by decide) (by decide)
    (by
      intro b0 hb0 a ha
      have hb : some ([1, 2] : List Int) = some b0 := hb0
      cases hb
      cases ha
      decide)

end Rsoundio
